import Mathlib

/-!
# Wave-spawning and drone-lifecycle subsystem: verification development

Shallow embedding of the core gameplay subsystem of the "Drone Defense Mini"
game (drone entity state machine, player base, wave manager with object pool),
translated from `src/entities/entity.ts`, `src/entities/drone.ts`,
`src/entities/base.ts` (PlayerBase), `src/entities/basicDrone.ts` and the
`WaveManager` class, plus the constants of `src/config.ts`.

Modelling conventions:
* Health values are natural numbers; the source's `Math.max(0, h - amount)`
  is `Nat` truncated subtraction (proved equal to the integer `max` where
  relevant).
* Positions are triples of rationals.  The source compares the Euclidean
  distance (a `sqrt` over floats) against the threshold `baseSize + 1 = 6`;
  since `sqrt` is monotone this is embedded exactly as the comparison of the
  *squared* distance against `36`, over `ℚ`.
* The floating-point vector arithmetic of the per-frame movement step
  (`normalize`, `multiplyScalar`, `add`) is not bit-exactly embeddable; the
  new position a movement step produces is therefore an explicit parameter
  (`newPos`) of `DroneState.update`, and likewise the random spawn position
  is a parameter of the wave-manager tick.  All theorems quantify over these
  parameters, so they hold for whatever values the float code computes.
* Callback lists (`onDestroyed`, `onHealthChange`, ...) are modelled as the
  list of events an operation emits, in emission order.  The wave manager's
  own `handleDroneDestroyed` subscription is wired in explicitly where the
  source fires `notifyDestroyed`.
* Purely visual collaborator work (explosion/debris effects, rotor spin,
  mesh transforms) is outside the modelled state, per the specification's
  scope; the scene-graph *attachment* and *visibility* of an entity's mesh,
  which the lifecycle protocol does manage, are modelled as booleans.
-/

namespace DroneGame

/-- A 3-D point with rational coordinates (embedding of `THREE.Vector3`). -/
structure Vec3 where
  x : ℚ
  y : ℚ
  z : ℚ
deriving Repr, DecidableEq

/-- Squared Euclidean distance between two points.  The source computes
`position.distanceTo(basePosition)` and compares it with a nonnegative
threshold; comparing squared distance with the squared threshold is the
exact same test. -/
def dist2 (p q : Vec3) : ℚ :=
  (p.x - q.x) ^ 2 + (p.y - q.y) ^ 2 + (p.z - q.z) ^ 2

/-! ## Config constants (from `src/config.ts`) -/

/-- Constant `Config.BASE_SIZE` (the drone code re-declares `const baseSize = 5`). -/
def baseSize : ℚ := 5

/-- Constant `Config.BASE_HEALTH = 100`. -/
def baseHealthConfig : ℕ := 100

/-- Constant `Config.BASIC_DRONE_HEALTH = 20`. -/
def basicDroneHealth : ℕ := 20

/-- Constant `Config.BASIC_DRONE_SPEED = 5`. -/
def basicDroneSpeed : ℚ := 5

/-- Constant `Config.BASIC_DRONE_POINTS = 10`. -/
def basicDronePoints : ℕ := 10

/-- Constant `Config.INITIAL_WAVE_DRONE_COUNT = 3`. -/
def initialWaveDroneCount : ℕ := 3

/-- Constant `Config.WAVE_DRONE_INCREMENT = 2`. -/
def waveDroneIncrement : ℕ := 2

/-- Constant `Config.WAVE_COOLDOWN = 5` (seconds between waves). -/
def waveCooldown : ℚ := 5

/-! ## PlayerBase (`src/entities/base.ts`) -/

/-- Observable state of the `PlayerBase` entity. -/
structure BaseState where
  health : ℕ
  maxHealth : ℕ
  pos : Vec3
deriving Repr, DecidableEq

/-- Events the `PlayerBase` emits through its callback lists. -/
inductive BaseEvent where
  | healthChange (health maxHealth : ℕ)
  | destroyed
deriving Repr, DecidableEq

/-- Method `PlayerBase.damage(amount)`: clamp-subtract the amount, fire the
health-change callbacks, and, whenever the (clamped) health is `<= 0`,
fire the destroyed callbacks and return `false`; otherwise return `true`.
Note the source has no one-shot guard on the destroyed callbacks. -/
def BaseState.damage (b : BaseState) (amount : ℕ) :
    BaseState × List BaseEvent × Bool :=
  let h := b.health - amount
  let b' : BaseState := { b with health := h }
  if h = 0 then
    (b', [BaseEvent.healthChange h b.maxHealth, BaseEvent.destroyed], false)
  else
    (b', [BaseEvent.healthChange h b.maxHealth], true)

/-! ## Drone (`src/entities/drone.ts`, concrete variant `basicDrone.ts`) -/

/-- Observable state of a `Drone` entity (fields of `Entity` and `Drone`
relevant to the lifecycle protocol).  `hasMesh` is whether `this.mesh` is
non-null, `meshAttached` whether `this.mesh.parent` is non-null (the mesh is
in the scene graph), `meshVisible` the mesh's `visible` flag, `sceneKnown`
whether the drone's `this.scene` back-reference is non-null, and `hasTarget`
whether `this.targetBase` is non-null. -/
structure DroneState where
  health : ℕ
  maxHealth : ℕ
  speed : ℚ
  damage : ℕ
  points : ℕ
  hasTarget : Bool
  waveNumber : ℕ
  pathVariation : ℚ
  isActive : Bool
  hasMesh : Bool
  meshAttached : Bool
  meshVisible : Bool
  sceneKnown : Bool
  pos : Vec3
deriving Repr, DecidableEq

/-- Events a `Drone` emits through `notifyDestroyed` (its
`onDestroyedCallbacks` list). -/
inductive DroneEvent where
  | destroyed (points : ℕ)
deriving Repr, DecidableEq

/-- Method `Entity.setActive(active)`: set the active flag and, when a mesh exists,
mirror the flag into the mesh's visibility. -/
def DroneState.setActive (d : DroneState) (a : Bool) : DroneState :=
  { d with isActive := a,
           meshVisible := if d.hasMesh then a else d.meshVisible }

/-- Method `Drone.forceDestroy()`: health to 0, inactive, remove the mesh from its
parent when attached (the explosion effect spawned there is collaborator
visual work, outside the modelled state), then fire the destruction
notification with the drone's point value.  The source fires the
notification unconditionally on every call. -/
def DroneState.forceDestroy (d : DroneState) : DroneState × List DroneEvent :=
  let d1 : DroneState := { d with health := 0, isActive := false }
  let d2 : DroneState :=
    if d1.hasMesh = true ∧ d1.meshAttached = true then
      { d1 with meshAttached := false }
    else d1
  (d2, [DroneEvent.destroyed d.points])

/-- Method `Drone.takeDamage(amount)`: no-op returning `false` when health is
already 0 or the drone is inactive; otherwise clamp-subtract and, when the
result is zero, delegate to `forceDestroy` and return `false`, else return
`true`. -/
def DroneState.takeDamage (d : DroneState) (amount : ℕ) :
    DroneState × List DroneEvent × Bool :=
  if d.health = 0 ∨ d.isActive = false then (d, [], false)
  else
    let d1 : DroneState := { d with health := d.health - amount }
    if d1.health = 0 then
      let r := d1.forceDestroy
      (r.1, r.2, false)
    else (d1, [], true)

/-- Method `Drone.attackBase()` + the body of `Drone.checkBaseCollision()`.
Guards: no target, inactive, or zero health ⇒ no-op; mesh present but
invisible ⇒ no-op; `isEntityActive()` re-check; then if the distance to the
base centre is below `baseSize + 1`, damage the base by the drone's damage
value, `setActive(false)`, and fire the destruction notification with 0
points.  Result: (drone, base, drone events, base events). -/
def DroneState.checkBaseCollision (d : DroneState) (b : BaseState) :
    DroneState × BaseState × List DroneEvent × List BaseEvent :=
  if d.hasTarget = false ∨ d.isActive = false ∨ d.health = 0 then
    (d, b, [], [])
  else if d.hasMesh = true ∧ d.meshVisible = false then (d, b, [], [])
  else if d.isActive = false then (d, b, [], [])
  else if dist2 d.pos b.pos < (baseSize + 1) ^ 2 then
    let r := b.damage d.damage
    let d' := d.setActive false
    (d', r.1, [DroneEvent.destroyed 0], r.2.1)
  else (d, b, [], [])

/-- Method `Drone.update(deltaTime)`: a drone with zero health is force-destroyed;
an inactive or targetless drone does nothing; otherwise the drone moves
toward the base (the float vector arithmetic is abstracted by the `newPos`
parameter), writes its transform, and runs `checkBaseCollision` (the
subclass behaviour hook of `BasicDrone` only spins rotor meshes). -/
def DroneState.update (d : DroneState) (b : BaseState) (newPos : Vec3) :
    DroneState × BaseState × List DroneEvent × List BaseEvent :=
  if d.health = 0 then
    let r := d.forceDestroy
    (r.1, b, r.2, [])
  else if d.isActive = false ∨ d.hasTarget = false then (d, b, [], [])
  else
    let d1 : DroneState := { d with pos := newPos }
    d1.checkBaseCollision b

/-- Method `Drone.reset(position)`: health back to `maxHealth`, position set; when
a mesh exists it is made visible and, if detached and the scene
back-reference is known, re-attached; the drone is marked active (the
source sets `isActive` directly and then also calls `setActive(true)`). -/
def DroneState.reset (d : DroneState) (p : Vec3) : DroneState :=
  let d1 : DroneState := { d with health := d.maxHealth, pos := p }
  let d2 : DroneState :=
    if d1.hasMesh = true then
      { d1 with meshVisible := true,
                meshAttached :=
                  if d1.meshAttached = false ∧ d1.sceneKnown = true then true
                  else d1.meshAttached }
    else d1
  let d3 : DroneState := { d2 with isActive := true }
  d3.setActive true

/-- Modelled from the spec: `setWaveNumber` — the source calls this drone
method from `WaveManager.applyWaveModifications` but its definition is not
among the provided sources; per the spec it is a "pure configuration
setter". -/
def DroneState.setWaveNumber (d : DroneState) (n : ℕ) : DroneState :=
  { d with waveNumber := n }

/-- Modelled from the spec: `setSpeed` — pure configuration setter (the
definition is absent from the provided sources; only its caller is). -/
def DroneState.setSpeed (d : DroneState) (s : ℚ) : DroneState :=
  { d with speed := s }

/-- Modelled from the spec: `setPathVariation` — pure configuration setter
(the definition is absent from the provided sources; only its caller
is). -/
def DroneState.setPathVariation (d : DroneState) (v : ℚ) : DroneState :=
  { d with pathVariation := v }

/-- A drone as produced by `WaveManager.initializeDronePool`: the
`BasicDrone` constructor (health/speed/points from config, damage 10, the
target base wired), then `init()` (builds the mesh, which at that point has
no parent, so the `scene` back-reference stays null), then
`setActive(false)`. -/
def freshDrone : DroneState :=
  { health := basicDroneHealth
    maxHealth := basicDroneHealth
    speed := basicDroneSpeed
    damage := 10
    points := basicDronePoints
    hasTarget := true
    waveNumber := 0
    pathVariation := 0
    isActive := false
    hasMesh := true
    meshAttached := false
    meshVisible := false
    sceneKnown := false
    pos := ⟨0, 0, 0⟩ }

/-! ## Wave configuration (`WaveManager.getCurrentWaveConfig` and friends) -/

/-- The `WaveConfig` interface: drone counts (fast/tank optional), seconds
between spawns, seconds until the next wave. -/
structure WaveConfig where
  basicDroneCount : ℕ
  fastDroneCount : Option ℕ
  tankDroneCount : Option ℕ
  spawnDelay : ℚ
  waveDelay : ℚ
deriving Repr, DecidableEq

/-- Method `initializeWaveConfigs`: the single predefined config for wave 1. -/
def initialWaveConfigs : List WaveConfig :=
  [{ basicDroneCount := initialWaveDroneCount
     fastDroneCount := none
     tankDroneCount := none
     spawnDelay := 2
     waveDelay := waveCooldown }]

/-- Method `WaveManager.getCurrentWaveConfig()`: waves covered by the predefined
list use it; later waves get a dynamically generated config with the count
capped at 30 and the spawn delay floored at 0.5 s.  (The manager only
queries this with `currentWave ≥ 1`.) -/
def getCurrentWaveConfig (wave : ℕ) : WaveConfig :=
  if wave ≤ initialWaveConfigs.length then
    initialWaveConfigs.getD (wave - 1)
      { basicDroneCount := initialWaveDroneCount, fastDroneCount := none,
        tankDroneCount := none, spawnDelay := 2, waveDelay := waveCooldown }
  else
    { basicDroneCount :=
        min 30 (initialWaveDroneCount + (wave - 1) * waveDroneIncrement)
      fastDroneCount := none
      tankDroneCount := none
      spawnDelay := max (1 / 2 : ℚ) (2 - (wave : ℚ) * (1 / 10))
      waveDelay := waveCooldown }

/-- Method `WaveManager.getWaveDroneCount()`: basic + fast + tank counts summed
(the optional counts contribute 0 when absent). -/
def getWaveDroneCount (wave : ℕ) : ℕ :=
  let c := getCurrentWaveConfig wave
  c.basicDroneCount + c.fastDroneCount.getD 0 + c.tankDroneCount.getD 0

/-! ## WaveManager state and operations -/

/-- Outbound notifications of the wave manager (its `onWaveStart`,
`onWaveEnd` and `onDroneDestroyed` callback lists). -/
inductive WMEvent where
  | waveStart (n : ℕ)
  | waveEnd (n : ℕ)
  | droneDestroyedAt (p : Vec3)
deriving Repr, DecidableEq

/-- The wave manager's state.  Pool drones are identified by their index in
`pool`; `active` is `activeDrones` as a list of pool indices (the source
stores object references, which are in bijection with pool slots).
`playing` embeds `gameState.isState('playing')`; `score` the game state's
score; `log`/`baseLog` accumulate the manager's and the base's outbound
events in emission order. -/
structure WMState where
  currentWave : ℕ
  pool : List DroneState
  active : List ℕ
  spawnTimer : ℚ
  waveTimer : ℚ
  isWaveActive : Bool
  spawnCount : ℕ
  base : BaseState
  score : ℕ
  playing : Bool
  log : List WMEvent
  baseLog : List BaseEvent
deriving Repr, DecidableEq

/-- Replace the element at index `i` (no-op when out of range); the
source's in-place mutation of `dronePool[i]`. -/
def listModify : List DroneState → ℕ → (DroneState → DroneState) →
    List DroneState
  | [], _, _ => []
  | d :: rest, 0, f => f d :: rest
  | d :: rest, i + 1, f => d :: listModify rest i f

/-- The recurring cleanup idiom `if (droneMesh && droneMesh.parent)
droneMesh.parent.remove(droneMesh)`: force-remove the drone's mesh from
the scene graph when it has one that is attached. -/
def detachMesh (d : DroneState) : DroneState :=
  if d.hasMesh = true ∧ d.meshAttached = true then
    { d with meshAttached := false }
  else d

/-- The drone-side cleanup `WaveManager.handleDroneDestroyed` performs after
score handling: double-check the drone is inactive (`setActive(false)` when
still active) and force-remove its mesh from the scene. -/
def wmSettleDrone (d : DroneState) : DroneState :=
  detachMesh (if d.isActive = true then d.setActive false else d)

/-- Method `WaveManager.handleDroneDestroyed(drone, points)` (the callback
registered on every pool drone's `onDestroyed`): add positive points to the
score, notify the manager's own drone-destroyed listeners with the drone's
position, remove the drone from `activeDrones` if present (`indexOf` +
`splice`, i.e. erase the first occurrence), then settle the drone. -/
def handleDroneDestroyed (s : WMState) (j : ℕ) (points : ℕ) : WMState :=
  let s1 := if 0 < points then { s with score := s.score + points } else s
  let posj := ((s1.pool.get? j).getD freshDrone).pos
  let s2 : WMState :=
    { s1 with log := s1.log ++ [WMEvent.droneDestroyedAt posj],
              active := s1.active.erase j }
  { s2 with pool := listModify s2.pool j wmSettleDrone }

/-- Deliver a drone's emitted events to the wave manager's registered
`onDestroyed` callback, in order. -/
def processDroneEvents (j : ℕ) : WMState → List DroneEvent → WMState
  | s, [] => s
  | s, DroneEvent.destroyed pts :: rest =>
      processDroneEvents j (handleDroneDestroyed s j pts) rest

/-- One iteration of the reverse loop in
`WaveManager.updateActiveDrones`, at position `i` of the (live) active
list: a missing entry is spliced out (the source's null guard); an
inactive or zero-health drone is spliced out and its mesh force-detached;
otherwise the drone's `update` runs, the base and pool are written back,
and any destruction notification the update fired is handled. -/
def uadStep (orc : ℕ → Vec3) (i : ℕ) (s : WMState) : WMState :=
  match s.active.get? i with
  | none => s
  | some j =>
    match s.pool.get? j with
    | none => { s with active := s.active.eraseIdx i }
    | some d =>
      if d.isActive = false ∨ d.health = 0 then
        { s with active := s.active.eraseIdx i,
                 pool := listModify s.pool j detachMesh }
      else
        let r := d.update s.base (orc j)
        let s1 : WMState :=
          { s with pool := listModify s.pool j (fun _ => r.1),
                   base := r.2.1,
                   baseLog := s.baseLog ++ r.2.2.2 }
        processDroneEvents j s1 r.2.2.1

/-- The reverse index loop of `updateActiveDrones`: positions
`fuel - 1, ..., 0`.  Splices only ever remove the position currently being
processed, so lower positions keep their meaning, exactly as in the
source's `for (let i = length - 1; i >= 0; i--)`. -/
def uadGo (orc : ℕ → Vec3) : ℕ → WMState → WMState
  | 0, s => s
  | i + 1, s => uadGo orc i (uadStep orc i s)

/-- Method `WaveManager.updateActiveDrones(deltaTime)` (the per-tick movement dt is
folded into the movement oracle `orc`). -/
def updateActiveDrones (orc : ℕ → Vec3) (s : WMState) : WMState :=
  uadGo orc s.active.length s

/-- The scan loop of `WaveManager.getInactiveDrone()`: walk the pool from
index `i` upward, returning the first slot whose drone is inactive and
(has zero health or is not in `activeDrones`). -/
def findFreeSlot (active : List ℕ) : ℕ → List DroneState → Option ℕ
  | _, [] => none
  | i, d :: rest =>
      if (!d.isActive && (d.health == 0 || !(active.contains i))) = true then
        some i
      else findFreeSlot active (i + 1) rest

/-- Method `WaveManager.getInactiveDrone()`: first pool slot whose drone is
inactive and (has zero health or is not in `activeDrones`); `null` when no
slot qualifies. -/
def getInactiveDrone (s : WMState) : Option ℕ :=
  findFreeSlot s.active 0 s.pool

/-- Method `WaveManager.applyWaveModifications(drone)`: wave number, cumulative
5 %-per-wave speed increase applied to the drone's *current* speed, and
path variation starting at wave 3. -/
def applyWaveModifications (wave : ℕ) (d : DroneState) : DroneState :=
  let d1 := d.setWaveNumber wave
  let d2 := d1.setSpeed (d1.speed * (1 + ((wave : ℚ) - 1) * (5 / 100)))
  if 3 ≤ wave then d2.setPathVariation (((wave : ℚ) - 2) * (3 / 10))
  else d2.setPathVariation 0

/-- Method `WaveManager.spawnDrone()`: nothing to spawn when `spawnCount` is 0;
acquire a pool slot (silently skipping the attempt when none qualifies);
reset the drone at the given spawn position and apply wave modifications;
defensively force-destroy and skip when health is somehow still 0; skip
when the drone has no mesh; otherwise attach the mesh to the scene when
not already there, push the drone onto `activeDrones`, and decrement
`spawnCount`. -/
def spawnDrone (s : WMState) (spawnPos : Vec3) : WMState :=
  if s.spawnCount = 0 then s
  else
    match getInactiveDrone s with
    | none => s
    | some j =>
      match s.pool.get? j with
      | none => s
      | some d =>
        let d2 := applyWaveModifications s.currentWave (d.reset spawnPos)
        if d2.health = 0 then
          let r := d2.forceDestroy
          processDroneEvents j
            { s with pool := listModify s.pool j (fun _ => r.1) } r.2
        else if d2.hasMesh = true then
          let d3 :=
            if d2.meshAttached = false then { d2 with meshAttached := true }
            else d2
          { s with pool := listModify s.pool j (fun _ => d3),
                   active := s.active ++ [j],
                   spawnCount := s.spawnCount - 1 }
        else s

/-- Method `WaveManager.startNextWave()`: advance the wave counter, mark the wave
active, load the spawn budget for the new wave, zero the spawn timer so the
first drone spawns immediately, and notify wave-start listeners. -/
def startNextWave (s : WMState) : WMState :=
  let w := s.currentWave + 1
  { s with currentWave := w,
           isWaveActive := true,
           spawnCount := getWaveDroneCount w,
           spawnTimer := 0,
           log := s.log ++ [WMEvent.waveStart w] }

/-- Method `WaveManager.endWave()`: leave wave-active, set the inter-wave timer to
the configured cooldown, and notify wave-end listeners. -/
def endWave (s : WMState) : WMState :=
  { s with isWaveActive := false,
           waveTimer := (getCurrentWaveConfig s.currentWave).waveDelay,
           log := s.log ++ [WMEvent.waveEnd s.currentWave] }

/-- Method `WaveManager.update(deltaTime)`: no-op unless the game state is
'playing'; age the active drones; then either count the inter-wave timer
down (starting the next wave at zero or below), or, while drones remain to
spawn, count the spawn timer down (spawning one drone at zero or below and
re-arming the timer with the wave's spawn delay), or end the wave once the
spawn budget is exhausted and no active drones remain. -/
def wmUpdate (orc : ℕ → Vec3) (spawnPos : Vec3) (dt : ℚ) (s : WMState) :
    WMState :=
  if s.playing = false then s
  else
    let s1 := updateActiveDrones orc s
    if s1.isWaveActive = false then
      let s2 := { s1 with waveTimer := s1.waveTimer - dt }
      if s2.waveTimer ≤ 0 then startNextWave s2 else s2
    else if 0 < s1.spawnCount then
      let s2 := { s1 with spawnTimer := s1.spawnTimer - dt }
      if s2.spawnTimer ≤ 0 then
        let s3 := spawnDrone s2 spawnPos
        { s3 with
            spawnTimer := (getCurrentWaveConfig s3.currentWave).spawnDelay }
      else s2
    else if s1.active = [] then endWave s1
    else s1

/-- The CollisionManager's general hit path: `drone.takeDamage(damage)` on
a pool drone, with the destruction notification (if any) delivered to the
wave manager's registered callback. -/
def hitDrone (s : WMState) (i : ℕ) (amount : ℕ) : WMState :=
  match s.pool.get? i with
  | none => s
  | some d =>
    let r := d.takeDamage amount
    processDroneEvents i
      { s with pool := listModify s.pool i (fun _ => r.1) } r.2.1

/-- The CollisionManager's lethal-hit optimisation: `drone.forceDestroy()`
on a pool drone, with the destruction notification delivered to the wave
manager's registered callback. -/
def destroyDrone (s : WMState) (i : ℕ) : WMState :=
  match s.pool.get? i with
  | none => s
  | some d =>
    let r := d.forceDestroy
    processDroneEvents i
      { s with pool := listModify s.pool i (fun _ => r.1) } r.2

/-- Method `WaveManager.reset()`: wave counter and timers back to their initial
values (a short 1 s initial wave timer), every pooled drone reconfigured
(wave number 1, no path variation, base speed), deactivated, and detached
from the scene, and the active list cleared. -/
def wmReset (s : WMState) : WMState :=
  let pool' := s.pool.map fun d =>
    detachMesh ((((d.setWaveNumber 1).setPathVariation 0).setSpeed
      basicDroneSpeed).setActive false)
  { s with currentWave := 0,
           isWaveActive := false,
           waveTimer := 1,
           spawnCount := 0,
           spawnTimer := 0,
           pool := pool',
           active := [] }

/-- The wave manager as constructed: a 30-slot pool of fresh basic drones,
empty active list, zeroed timers and counters, full-health base. -/
def initWM (basePos : Vec3) : WMState :=
  { currentWave := 0
    pool := List.replicate 30 freshDrone
    active := []
    spawnTimer := 0
    waveTimer := 0
    isWaveActive := false
    spawnCount := 0
    base := { health := baseHealthConfig, maxHealth := baseHealthConfig,
              pos := basePos }
    score := 0
    playing := true
    log := []
    baseLog := [] }

/-- States of the wave-manager subsystem reachable from construction by
its operations: per-frame updates (over arbitrary movement oracles, spawn
positions and frame deltas), collision-manager hits (general and lethal
paths, which funnel into the manager's destruction callback), and
session reset. -/
inductive Reachable : WMState → Prop
  | init (basePos : Vec3) : Reachable (initWM basePos)
  | update (orc : ℕ → Vec3) (spawnPos : Vec3) (dt : ℚ) (s : WMState) :
      Reachable s → Reachable (wmUpdate orc spawnPos dt s)
  | hit (i amount : ℕ) (s : WMState) :
      Reachable s → Reachable (hitDrone s i amount)
  | lethalHit (i : ℕ) (s : WMState) :
      Reachable s → Reachable (destroyDrone s i)
  | reset (s : WMState) : Reachable s → Reachable (wmReset s)

/-! ## Drone-level operation sequences (for lifecycle claims) -/

/-- One call of the drone-facing API, as seen between two `reset` calls. -/
inductive DroneOp where
  | takeDamage (amount : ℕ)
  | forceDestroy
  | update (newPos : Vec3)
  | checkBaseCollision
deriving Repr, DecidableEq

/-- Apply one API call to a (drone, base, fired-notifications) triple,
appending the destruction notifications the call fires. -/
def applyDroneOp (x : DroneState × BaseState × List DroneEvent)
    (op : DroneOp) : DroneState × BaseState × List DroneEvent :=
  match op with
  | DroneOp.takeDamage a =>
      let r := x.1.takeDamage a
      (r.1, x.2.1, x.2.2 ++ r.2.1)
  | DroneOp.forceDestroy =>
      let r := x.1.forceDestroy
      (r.1, x.2.1, x.2.2 ++ r.2)
  | DroneOp.update p =>
      let r := x.1.update x.2.1 p
      (r.1, r.2.1, x.2.2 ++ r.2.2.1)
  | DroneOp.checkBaseCollision =>
      let r := x.1.checkBaseCollision x.2.1
      (r.1, r.2.1, x.2.2 ++ r.2.2.1)

/-- Run a sequence of API calls on a drone, starting right after a
`reset(position)` call, collecting every destruction notification fired
during the sequence. -/
def runDroneOps (d : DroneState) (b : BaseState) (ops : List DroneOp) :
    DroneState × BaseState × List DroneEvent :=
  ops.foldl applyDroneOp (d, b, [])

/-! ## Shared concrete test fixtures -/

/-- Constant `Config.BASE_POSITION` = (0, 2.5, 0). -/
def basePosDefault : Vec3 := ⟨0, 5 / 2, 0⟩

/-- The base as constructed for a session. -/
def testBase : BaseState :=
  { health := baseHealthConfig, maxHealth := baseHealthConfig,
    pos := basePosDefault }

/-- A point within collision range of the default base position
(squared distance `1.25 < 36`). -/
def nearBasePoint : Vec3 := ⟨1, 2, 0⟩

/-- A point far outside collision range of the default base position. -/
def farPoint : Vec3 := ⟨0, 5, 50⟩

/-- A movement oracle that steers every drone onto the base. -/
def orcNear : ℕ → Vec3 := fun _ => nearBasePoint

/-- A live drone as it is right after the pool spawns it: reset at a point
far from the base (its mesh attached by the manager's `scene.add`). -/
def liveDrone : DroneState :=
  { (freshDrone.reset farPoint) with meshAttached := true }

/-- A live attached drone standing at the near-base test point. -/
def collidingDrone : DroneState :=
  { liveDrone with pos := nearBasePoint }

/-- The near-base test point is inside the collision threshold: its
squared distance to the default base position is `5/4 < 36`. -/
theorem collidingDrone_close :
    dist2 collidingDrone.pos testBase.pos < (baseSize + 1) ^ 2 := by
  norm_num [dist2, collidingDrone, liveDrone, freshDrone, DroneState.reset,
    DroneState.setActive, nearBasePoint, testBase, basePosDefault, baseSize]

/-! ## C2: PlayerBase.damage -/

/-- C2 counterexample: the claim says the destroyed notification fires
exactly once, only on the first call at which health reaches zero, even if
`damage()` is called again afterward.  On the source: a base at health 10
takes 20 damage (health clamps to 0, destroyed fires), then 1 more damage —
and the destroyed notification fires a second time, because
`PlayerBase.damage` re-fires its destroyed callbacks on every call made
while health is 0. -/
theorem c2_counterexample :
    (let b0 : BaseState :=
      { health := 10, maxHealth := 100, pos := basePosDefault }
    let r1 := b0.damage 20
    let r2 := r1.1.damage 1
    ((r1.2.1 ++ r2.2.1).count BaseEvent.destroyed) = 2) := by decide

/-- C2 (amended): `damage(amount)` sets health to `max(0, health − amount)`
(never negative), fires the health-change notification with the new value
on every call, and fires the destroyed notification on *every* call whose
resulting health is 0 — not only the first; the boolean result reports
whether the base is still alive. -/
theorem c2_base_damage (b : BaseState) (amount : ℕ) :
    (((b.damage amount).1.health : ℤ) =
        max 0 ((b.health : ℤ) - (amount : ℤ))) ∧
    (b.damage amount).2.1.head? =
      some (BaseEvent.healthChange ((b.damage amount).1.health)
        b.maxHealth) ∧
    (BaseEvent.destroyed ∈ (b.damage amount).2.1 ↔
      (b.damage amount).1.health = 0) ∧
    ((b.damage amount).2.2 = true ↔ (b.damage amount).1.health ≠ 0) := by
  unfold BaseState.damage
  by_cases h : b.health - amount = 0 <;>
    simp [h] <;> omega

/-! ## C4: Drone.takeDamage -/

/-- C4 (confirmed): `takeDamage(amount)` is a no-op returning "dead"
(`false`) when health is already 0 or the drone is inactive — it emits no
notification and leaves the drone unchanged; otherwise it sets health to
`health − amount` clamped at zero, and when the result is 0 it runs the
forced-destruction path (drone left at zero health, inactive, one
destruction notification with the drone's point value) and returns "dead",
else it returns "alive" (`true`). -/
theorem c4_takeDamage (d : DroneState) (amount : ℕ) :
    (d.health = 0 ∨ d.isActive = false →
      d.takeDamage amount = (d, [], false)) ∧
    (0 < d.health → d.isActive = true →
      (((d.takeDamage amount).1.health : ℤ) =
          max 0 ((d.health : ℤ) - (amount : ℤ))) ∧
      (amount < d.health →
        d.takeDamage amount =
          ({ d with health := d.health - amount }, [], true)) ∧
      (d.health ≤ amount →
        (d.takeDamage amount).1.health = 0 ∧
        (d.takeDamage amount).1.isActive = false ∧
        (d.takeDamage amount).2.1 = [DroneEvent.destroyed d.points] ∧
        (d.takeDamage amount).2.2 = false)) := by
  constructor
  · intro h
    unfold DroneState.takeDamage
    rw [if_pos h]
  · intro hh ha
    have hguard : ¬(d.health = 0 ∨ d.isActive = false) := by
      simp [ha]; omega
    by_cases hz : d.health - amount = 0
    · by_cases hm : d.hasMesh = true ∧ d.meshAttached = true <;>
        simp [DroneState.takeDamage, DroneState.forceDestroy, hguard, hz,
          hm] <;>
        omega
    · refine ⟨?_, ?_, ?_⟩
      · simp [DroneState.takeDamage, hguard, hz]
        omega
      · intro hlt
        simp [DroneState.takeDamage, hguard, hz]
      · intro hle
        exact absurd (by omega) hz

/-- C4 witness: the concrete no-op case (an inactive pooled drone ignores
damage) and the concrete lethal case (a live drone of health 20 hit for 25
ends at health 0, inactive, with one notification carrying its 10
points). -/
theorem c4_witness :
    freshDrone.takeDamage 5 = (freshDrone, [], false) ∧
    (liveDrone.takeDamage 25).1.health = 0 ∧
    (liveDrone.takeDamage 25).1.isActive = false ∧
    (liveDrone.takeDamage 25).2.1 = [DroneEvent.destroyed 10] ∧
    (liveDrone.takeDamage 25).2.2 = false := by
  refine ⟨(c4_takeDamage freshDrone 5).1 (Or.inr rfl), ?_⟩
  have h := ((c4_takeDamage liveDrone 25).2 (by decide) (by decide)).2.2
    (by decide)
  exact ⟨h.1, h.2.1, by rw [h.2.2.1]; decide, h.2.2.2⟩

/-! ## C1: at-most-once destruction notification per life cycle -/

/-- C1 counterexample: the claim says that between one `reset` and the
next, the destruction notification fires at most once regardless of the
call sequence, and in particular that a second `forceDestroy` on a drone
whose health is already 0 does not fire it again.  On the source, a drone
reset far from the base and then force-destroyed twice fires the
notification twice: `forceDestroy` notifies unconditionally on every
call. -/
theorem c1_counterexample :
    (runDroneOps liveDrone testBase
        [DroneOp.forceDestroy, DroneOp.forceDestroy]).2.2.length = 2 := by
  decide

/-- C1 (amended): the guarded entry points preserve at-most-once
delivery — `takeDamage` and `checkBaseCollision` fire nothing once the
drone is dead or inactive — but `forceDestroy` fires the destruction
notification unconditionally on every call (and `update` on a zero-health
drone funnels into it), so a second `forceDestroy` on a dead drone fires
the notification again. -/
theorem c1_notification_paths (d : DroneState) (b : BaseState) (amount : ℕ)
    (h : d.health = 0 ∨ d.isActive = false) :
    (d.takeDamage amount).2.1 = [] ∧
    (d.checkBaseCollision b).2.2.1 = [] ∧
    d.forceDestroy.2 = [DroneEvent.destroyed d.points] := by
  refine ⟨?_, ?_, ?_⟩
  · simp [DroneState.takeDamage, h]
  · rcases h with h | h
    · have : d.hasTarget = false ∨ d.isActive = false ∨ d.health = 0 :=
        Or.inr (Or.inr h)
      simp [DroneState.checkBaseCollision, this]
    · have : d.hasTarget = false ∨ d.isActive = false ∨ d.health = 0 :=
        Or.inr (Or.inl h)
      simp [DroneState.checkBaseCollision, this]
  · by_cases hm : d.hasMesh = true ∧ d.meshAttached = true <;>
      simp [DroneState.forceDestroy, hm]

/-- C1 witness: a freshly destroyed drone (health 0) ignores further
`takeDamage` and `checkBaseCollision` but its next `forceDestroy` still
fires a notification carrying its 10 points. -/
theorem c1_witness :
    ((liveDrone.forceDestroy.1.takeDamage 7).2.1 = [] ∧
     (liveDrone.forceDestroy.1.checkBaseCollision testBase).2.2.1 = [] ∧
     liveDrone.forceDestroy.1.forceDestroy.2 = [DroneEvent.destroyed 10]) :=
  c1_notification_paths liveDrone.forceDestroy.1 testBase 7
    (Or.inl (by decide))

/-! ## C8: base-collision consequences -/

/-- C8 (confirmed): an active, alive drone with a target base whose
distance to the base centre is below the fixed threshold
(`baseSize + 1 = 6`, i.e. base half-extent plus drone margin) deals
exactly its configured damage to the base — the base's health-change
notification fires with the new value — deactivates itself, and fires its
own destruction notification with exactly zero points; and a zero-point
notification adds nothing to the score when the wave manager handles
it. -/
theorem c8_base_collision (d : DroneState) (b : BaseState)
    (ht : d.hasTarget = true) (ha : d.isActive = true) (hh : 0 < d.health)
    (hv : d.hasMesh = true → d.meshVisible = true)
    (hd : dist2 d.pos b.pos < (baseSize + 1) ^ 2) :
    (d.checkBaseCollision b).2.1.health = b.health - d.damage ∧
    (d.checkBaseCollision b).2.2.2.head? =
      some (BaseEvent.healthChange (b.health - d.damage) b.maxHealth) ∧
    (d.checkBaseCollision b).1.isActive = false ∧
    (d.checkBaseCollision b).2.2.1 = [DroneEvent.destroyed 0] ∧
    (∀ s j, (handleDroneDestroyed s j 0).score = s.score) := by
  have hg1 : ¬(d.hasTarget = false ∨ d.isActive = false ∨ d.health = 0) := by
    simp [ht, ha]; omega
  have hg2 : ¬(d.hasMesh = true ∧ d.meshVisible = false) := by
    rintro ⟨hm, hvv⟩
    rw [hv hm] at hvv
    cases hvv
  have hg3 : ¬(d.isActive = false) := by simp [ha]
  have hh0 : ¬(d.health = 0) := by omega
  refine ⟨?_, ?_, ?_, ?_, ?_⟩ <;>
    first
    | (intro s j
       simp [handleDroneDestroyed])
    | (by_cases hz : b.health - d.damage = 0 <;>
        simp [DroneState.checkBaseCollision, hg1, hg2, hg3, hd, ht, hh0,
          BaseState.damage, DroneState.setActive, hz])

/-- C8 witness: a live drone at the near-base test point (squared distance
1.25 < 36) hits the 100-health base: base health becomes 90, the
health-change notification carries 90, the drone deactivates, and its
destruction notification carries 0 points. -/
theorem c8_witness :
    (collidingDrone.checkBaseCollision testBase).2.1.health = 90 ∧
    (collidingDrone.checkBaseCollision testBase).2.2.2.head? =
      some (BaseEvent.healthChange 90 100) ∧
    (collidingDrone.checkBaseCollision testBase).1.isActive = false ∧
    (collidingDrone.checkBaseCollision testBase).2.2.1 =
      [DroneEvent.destroyed 0] := by
  have h := c8_base_collision collidingDrone testBase (by decide) (by decide)
    (by decide) (fun _ => by decide) collidingDrone_close
  exact ⟨h.1, h.2.1, h.2.2.1, h.2.2.2.1⟩

/-! ## C10: what a base hit does and does not change on the drone -/

/-- C10 (confirmed): when a drone self-destructs by reaching the base, the
only drone fields that change are the active flag (set false) and the
mesh's visibility; health keeps its positive pre-collision value and the
mesh attachment is untouched — so immediately after a base hit the drone
is inactive with health > 0 — and it is a later `forceDestroy` or the wave
manager's settle pass (run by its maintenance loop and destruction
callback) that detaches the mesh. -/
theorem c10_base_hit_fields (d : DroneState) (b : BaseState)
    (ht : d.hasTarget = true) (ha : d.isActive = true) (hh : 0 < d.health)
    (hm : d.hasMesh = true) (hv : d.meshVisible = true)
    (hd : dist2 d.pos b.pos < (baseSize + 1) ^ 2) :
    (d.checkBaseCollision b).1 =
      { d with isActive := false, meshVisible := false } ∧
    0 < (d.checkBaseCollision b).1.health ∧
    (d.checkBaseCollision b).1.meshAttached = d.meshAttached ∧
    (d.checkBaseCollision b).1.forceDestroy.1.meshAttached = false ∧
    (wmSettleDrone (d.checkBaseCollision b).1).meshAttached = false := by
  have hg1 : ¬(d.hasTarget = false ∨ d.isActive = false ∨ d.health = 0) := by
    simp [ht, ha]; omega
  have hg2 : ¬(d.hasMesh = true ∧ d.meshVisible = false) := by
    rintro ⟨_, hvv⟩
    rw [hv] at hvv
    cases hvv
  have hg3 : ¬(d.isActive = false) := by simp [ha]
  have hh0 : ¬(d.health = 0) := by omega
  have hcbc : (d.checkBaseCollision b).1 =
      { d with isActive := false, meshVisible := false } := by
    simp [DroneState.checkBaseCollision, hg1, hg2, hg3, hd, ht, hh0, hv,
      DroneState.setActive, hm]
  refine ⟨hcbc, ?_, ?_, ?_, ?_⟩ <;>
    simp only [hcbc] <;>
    first
    | exact hh
    | rfl
    | (by_cases hatt : d.meshAttached = true <;>
        simp [DroneState.forceDestroy, wmSettleDrone, detachMesh,
          DroneState.setActive, hm, hatt])

/-- C10 witness: the near-base collision on a live attached drone leaves
health 20 > 0 with the mesh still attached while the drone is inactive and
hidden; `forceDestroy` or the manager's settle pass then detaches it. -/
theorem c10_witness :
    (collidingDrone.checkBaseCollision testBase).1 =
      { collidingDrone with isActive := false, meshVisible := false } ∧
    0 < (collidingDrone.checkBaseCollision testBase).1.health ∧
    (collidingDrone.checkBaseCollision testBase).1.meshAttached =
      collidingDrone.meshAttached ∧
    (collidingDrone.checkBaseCollision testBase).1.forceDestroy.1.meshAttached
      = false ∧
    (wmSettleDrone (collidingDrone.checkBaseCollision testBase).1).meshAttached
      = false :=
  c10_base_hit_fields collidingDrone testBase (by decide) (by decide)
    (by decide) (by decide) (by decide) collidingDrone_close

/-! ## C7: difficulty scaling -/

/-- Every wave's inter-wave delay is the configured cooldown. -/
lemma waveDelay_eq (w : ℕ) :
    (getCurrentWaveConfig w).waveDelay = waveCooldown := by
  unfold getCurrentWaveConfig
  split
  · cases h : w - 1 <;> simp [initialWaveConfigs, List.getD, h]
  · rfl

/-- The drone count follows the clamped linear formula for every wave
(the predefined wave-1 config agrees with the formula at `n = 1`). -/
lemma droneCount_formula (n : ℕ) (h : 1 ≤ n) :
    getWaveDroneCount n =
      min 30 (initialWaveDroneCount + (n - 1) * waveDroneIncrement) := by
  unfold getWaveDroneCount getCurrentWaveConfig
  by_cases h1 : n ≤ initialWaveConfigs.length
  · have hn1 : n = 1 := by
      simp [initialWaveConfigs] at h1
      omega
    subst hn1
    simp [initialWaveConfigs, initialWaveDroneCount, waveDroneIncrement]
  · simp [h1, initialWaveDroneCount, waveDroneIncrement]

/-- Wave 1 uses the predefined spawn delay of 2 s. -/
lemma spawnDelay_one : (getCurrentWaveConfig 1).spawnDelay = 2 := by
  simp [getCurrentWaveConfig, initialWaveConfigs]

/-- From wave 2 on, the spawn delay follows the floored linear formula. -/
lemma spawnDelay_ge_two (n : ℕ) (h : 2 ≤ n) :
    (getCurrentWaveConfig n).spawnDelay =
      max (1 / 2 : ℚ) (2 - (n : ℚ) * (1 / 10)) := by
  have hx : ¬(n ≤ initialWaveConfigs.length) := by
    simp [initialWaveConfigs]
    omega
  simp [getCurrentWaveConfig, hx]

/-- C7 counterexample: the claim says the spawn delay follows
`max(floor, base_delay − n·decrement)`; at wave 1 the code instead uses
the predefined config's 2.0 s, while the formula gives 1.9 s. -/
theorem c7_counterexample :
    (getCurrentWaveConfig 1).spawnDelay = 2 ∧
    max (1 / 2 : ℚ) (2 - (1 : ℚ) * (1 / 10)) = 19 / 10 ∧
    ¬((getCurrentWaveConfig 1).spawnDelay =
        max (1 / 2 : ℚ) (2 - (1 : ℚ) * (1 / 10))) := by
  refine ⟨spawnDelay_one, by norm_num, ?_⟩
  rw [spawnDelay_one]
  norm_num

/-- C7 (amended): for all waves `1 ≤ m ≤ n`, the drone count is monotone
non-decreasing and never exceeds its cap of 30, and equals
`min(cap, initial_count + (n−1)·increment)` at every wave; the spawn delay
is monotone non-increasing and never falls below its floor of 0.5 s, and
equals `max(floor, base_delay − n·decrement)` from wave 2 on — wave 1
alone uses the predefined 2.0 s delay instead of the formula's 1.9 s. -/
theorem c7_scaling (m n : ℕ) (h1 : 1 ≤ m) (hmn : m ≤ n) :
    getWaveDroneCount m ≤ getWaveDroneCount n ∧
    getWaveDroneCount n ≤ 30 ∧
    (getCurrentWaveConfig n).spawnDelay ≤
      (getCurrentWaveConfig m).spawnDelay ∧
    (1 / 2 : ℚ) ≤ (getCurrentWaveConfig n).spawnDelay ∧
    getWaveDroneCount n =
      min 30 (initialWaveDroneCount + (n - 1) * waveDroneIncrement) ∧
    (2 ≤ n → (getCurrentWaveConfig n).spawnDelay =
      max (1 / 2 : ℚ) (2 - (n : ℚ) * (1 / 10))) := by
  have hn : 1 ≤ n := le_trans h1 hmn
  refine ⟨?_, ?_, ?_, ?_, droneCount_formula n hn, spawnDelay_ge_two n⟩
  · rw [droneCount_formula m h1, droneCount_formula n hn]
    refine min_le_min le_rfl (Nat.add_le_add_left ?_ _)
    exact Nat.mul_le_mul_right _ (Nat.sub_le_sub_right hmn 1)
  · rw [droneCount_formula n hn]
    exact min_le_left _ _
  · by_cases hm1 : m = 1
    · subst hm1
      rw [spawnDelay_one]
      by_cases hn1 : n = 1
      · subst hn1
        rw [spawnDelay_one]
      · rw [spawnDelay_ge_two n (by omega)]
        have hp : (0 : ℚ) ≤ (n : ℚ) * (1 / 10) := by positivity
        apply max_le (by norm_num) (by linarith)
    · have hm2 : 2 ≤ m := by omega
      rw [spawnDelay_ge_two m hm2, spawnDelay_ge_two n (by omega)]
      have hc : (m : ℚ) ≤ (n : ℚ) := by exact_mod_cast hmn
      exact max_le (le_max_left _ _) (le_max_of_le_right (by linarith))
  · by_cases hn1 : n = 1
    · subst hn1
      rw [spawnDelay_one]
      norm_num
    · rw [spawnDelay_ge_two n (by omega)]
      exact le_max_left _ _

/-- C7 witness: the amended scaling facts at the concrete waves 1 and 3. -/
theorem c7_witness :
    getWaveDroneCount 1 ≤ getWaveDroneCount 3 ∧
    getWaveDroneCount 3 ≤ 30 ∧
    (getCurrentWaveConfig 3).spawnDelay ≤
      (getCurrentWaveConfig 1).spawnDelay ∧
    (1 / 2 : ℚ) ≤ (getCurrentWaveConfig 3).spawnDelay ∧
    getWaveDroneCount 3 =
      min 30 (initialWaveDroneCount + (3 - 1) * waveDroneIncrement) ∧
    (2 ≤ 3 → (getCurrentWaveConfig 3).spawnDelay =
      max (1 / 2 : ℚ) (2 - (3 : ℚ) * (1 / 10))) :=
  c7_scaling 1 3 (by norm_num) (by norm_num)

/-! ## Scheduling fields are untouched by the active-drone maintenance -/

/-- The wave-scheduling fields two states agree on: the maintenance pass
and the destruction callback only touch pool/active/base/score/logs. -/
def schedEq (s t : WMState) : Prop :=
  t.currentWave = s.currentWave ∧ t.spawnTimer = s.spawnTimer ∧
  t.waveTimer = s.waveTimer ∧ t.isWaveActive = s.isWaveActive ∧
  t.spawnCount = s.spawnCount ∧ t.playing = s.playing

lemma schedEq_refl (s : WMState) : schedEq s s :=
  ⟨rfl, rfl, rfl, rfl, rfl, rfl⟩

lemma schedEq_trans {s t u : WMState} (h1 : schedEq s t)
    (h2 : schedEq t u) : schedEq s u := by
  obtain ⟨hw1, hst1, hwt1, hia1, hsc1, hpl1⟩ := h1
  obtain ⟨hw2, hst2, hwt2, hia2, hsc2, hpl2⟩ := h2
  exact ⟨hw2.trans hw1, hst2.trans hst1, hwt2.trans hwt1, hia2.trans hia1,
    hsc2.trans hsc1, hpl2.trans hpl1⟩

lemma handleDroneDestroyed_sched (s : WMState) (j pts : ℕ) :
    schedEq s (handleDroneDestroyed s j pts) := by
  unfold handleDroneDestroyed
  split <;> exact ⟨rfl, rfl, rfl, rfl, rfl, rfl⟩

lemma processDroneEvents_sched (j : ℕ) :
    ∀ (evs : List DroneEvent) (s : WMState),
      schedEq s (processDroneEvents j s evs)
  | [], s => schedEq_refl s
  | DroneEvent.destroyed pts :: rest, s =>
      schedEq_trans (handleDroneDestroyed_sched s j pts)
        (processDroneEvents_sched j rest (handleDroneDestroyed s j pts))

lemma uadStep_sched (orc : ℕ → Vec3) (i : ℕ) (s : WMState) :
    schedEq s (uadStep orc i s) := by
  unfold uadStep
  rcases hai : s.active.get? i with _ | j <;> simp only [hai]
  · exact schedEq_refl s
  · rcases hpj : s.pool.get? j with _ | d <;> simp only [hpj]
    · exact ⟨rfl, rfl, rfl, rfl, rfl, rfl⟩
    · by_cases hb : d.isActive = false ∨ d.health = 0
      · rw [if_pos hb]
        exact ⟨rfl, rfl, rfl, rfl, rfl, rfl⟩
      · rw [if_neg hb]
        exact schedEq_trans ⟨rfl, rfl, rfl, rfl, rfl, rfl⟩
          (processDroneEvents_sched j _ _)

lemma uadGo_sched (orc : ℕ → Vec3) :
    ∀ (fuel : ℕ) (s : WMState), schedEq s (uadGo orc fuel s)
  | 0, s => schedEq_refl s
  | i + 1, s =>
      schedEq_trans (uadStep_sched orc i s)
        (uadGo_sched orc i (uadStep orc i s))

lemma updateActiveDrones_sched (orc : ℕ → Vec3) (s : WMState) :
    schedEq s (updateActiveDrones orc s) :=
  uadGo_sched orc s.active.length s

lemma updateActiveDrones_nil (orc : ℕ → Vec3) (s : WMState)
    (h : s.active = []) : updateActiveDrones orc s = s := by
  unfold updateActiveDrones
  rw [h]
  rfl

/-! ## C6: wave state-machine transitions -/

/-- C6 (confirmed): while the game is playing, a non-wave-active tick
decreases `waveTimer` by the frame delta, and when the decreased timer is
zero or below the manager enters wave-active with the wave counter
advanced, `spawnCount` loaded with the upcoming wave's total drone count
(basic + fast + tank summed) and `spawnTimer = 0` so the first spawn is
immediate; a wave-active tick with `spawnCount = 0` and no active drones
leaves wave-active, sets `waveTimer` to the configured inter-wave cooldown
and fires the wave-end notification. -/
theorem c6_wave_transitions (orc : ℕ → Vec3) (spawnPos : Vec3) (dt : ℚ)
    (s : WMState) (hp : s.playing = true) :
    (s.isWaveActive = false →
      (0 < s.waveTimer - dt →
        (wmUpdate orc spawnPos dt s).waveTimer = s.waveTimer - dt ∧
        (wmUpdate orc spawnPos dt s).isWaveActive = false) ∧
      (s.waveTimer - dt ≤ 0 →
        (wmUpdate orc spawnPos dt s).isWaveActive = true ∧
        (wmUpdate orc spawnPos dt s).currentWave = s.currentWave + 1 ∧
        (wmUpdate orc spawnPos dt s).spawnCount =
          (getCurrentWaveConfig (s.currentWave + 1)).basicDroneCount +
          ((getCurrentWaveConfig (s.currentWave + 1)).fastDroneCount.getD 0)
          +
          ((getCurrentWaveConfig (s.currentWave + 1)).tankDroneCount.getD 0)
          ∧
        (wmUpdate orc spawnPos dt s).spawnTimer = 0)) ∧
    (s.isWaveActive = true → s.spawnCount = 0 → s.active = [] →
      (wmUpdate orc spawnPos dt s).isWaveActive = false ∧
      (wmUpdate orc spawnPos dt s).waveTimer = waveCooldown ∧
      (wmUpdate orc spawnPos dt s).log =
        s.log ++ [WMEvent.waveEnd s.currentWave]) := by
  have hsched := updateActiveDrones_sched orc s
  obtain ⟨hw, hst, hwt, hia, hsc, hpl⟩ := hsched
  have hp' : ¬((updateActiveDrones orc s).playing = false) := by
    rw [hpl, hp]
    simp
  constructor
  · intro hia0
    have hia0' : (updateActiveDrones orc s).isWaveActive = false :=
      hia.trans hia0
    constructor
    · intro hpos
      have hneg : ¬(s.waveTimer ≤ dt) := by linarith
      simp [wmUpdate, hp, hia0', hneg, hwt]
    · intro hle
      have hle' : s.waveTimer ≤ dt := by linarith
      simp [wmUpdate, hp, hia0', hle', startNextWave, getWaveDroneCount,
        hw, hwt]
  · intro hia1 hsc0 hac
    have heq : updateActiveDrones orc s = s :=
      updateActiveDrones_nil orc s hac
    simp [wmUpdate, hp, heq, hia1, hsc0, hac, endWave,
      waveDelay_eq s.currentWave]

/-- A wave-active manager state with spawn budget exhausted and no active
drones, about to end wave 1. -/
def endState : WMState :=
  { initWM basePosDefault with isWaveActive := true, currentWave := 1 }

/-- C6 witness: a freshly constructed manager ticked once (dt = 1) starts
wave 1 with a spawn budget of 3 and an immediate first spawn; a wave-active
state with no budget and no drones ticked once ends the wave with the 5 s
cooldown and a wave-end notification. -/
theorem c6_witness :
    ((wmUpdate orcNear nearBasePoint 1 (initWM basePosDefault)).isWaveActive
        = true ∧
     (wmUpdate orcNear nearBasePoint 1 (initWM basePosDefault)).currentWave
        = 1 ∧
     (wmUpdate orcNear nearBasePoint 1 (initWM basePosDefault)).spawnCount
        = 3 ∧
     (wmUpdate orcNear nearBasePoint 1 (initWM basePosDefault)).spawnTimer
        = 0) ∧
    ((wmUpdate orcNear nearBasePoint 1 endState).isWaveActive = false ∧
     (wmUpdate orcNear nearBasePoint 1 endState).waveTimer = waveCooldown ∧
     (wmUpdate orcNear nearBasePoint 1 endState).log =
       [WMEvent.waveEnd 1]) := by
  constructor
  · have h :=
      ((c6_wave_transitions orcNear nearBasePoint 1 (initWM basePosDefault)
        rfl).1 rfl).2 (by norm_num [initWM])
    refine ⟨h.1, h.2.1, ?_, h.2.2.2⟩
    rw [h.2.2.1]
    simp [initWM, getCurrentWaveConfig, initialWaveConfigs,
      initialWaveDroneCount]
  · have h :=
      (c6_wave_transitions orcNear nearBasePoint 1 endState rfl).2 rfl rfl
        rfl
    exact ⟨h.1, h.2.1, h.2.2⟩

/-! ## C5: pool acquisition policy -/

/-- What a successful pool scan guarantees about the slot it returns. -/
lemma findFreeSlot_spec (active : List ℕ) :
    ∀ (l : List DroneState) (i0 j : ℕ),
      findFreeSlot active i0 l = some j →
      ∃ d, l.get? (j - i0) = some d ∧ i0 ≤ j ∧ d.isActive = false ∧
        (d.health = 0 ∨ active.contains j = false) := by
  intro l
  induction l with
  | nil => intro i0 j h; cases h
  | cons d rest ih =>
    intro i0 j h
    unfold findFreeSlot at h
    by_cases hp : (!d.isActive && (d.health == 0 || !(active.contains i0)))
        = true
    · rw [if_pos hp] at h
      injection h with h
      subst h
      refine ⟨d, by simp, le_rfl, ?_⟩
      simp only [Bool.and_eq_true, Bool.or_eq_true, Bool.not_eq_true',
        beq_iff_eq] at hp
      exact ⟨hp.1, hp.2.imp id fun hc => by simpa using hc⟩
    · rw [if_neg hp] at h
      obtain ⟨d', hget, hle, hact, hcond⟩ := ih (i0 + 1) j h
      refine ⟨d', ?_, by omega, hact, hcond⟩
      have hj : j - i0 = (j - (i0 + 1)) + 1 := by omega
      rw [hj]
      simpa using hget

/-- C5 (amended): the slot `getInactiveDrone` selects holds a drone that is
inactive and *either* has zero health *or* is merely absent from
`activeDrones` — so a fresh full-health pool drone, or a base-collided
drone with positive health, is selectable; and when no slot qualifies the
spawn attempt is skipped without error and without decrementing
`spawnCount` (the manager simply re-attempts when the spawn timer next
expires). -/
theorem c5_pool_acquisition (s : WMState) (spawnPos : Vec3) :
    (∀ j, getInactiveDrone s = some j →
      ∃ d, s.pool.get? j = some d ∧ d.isActive = false ∧
        (d.health = 0 ∨ s.active.contains j = false)) ∧
    (getInactiveDrone s = none → spawnDrone s spawnPos = s) := by
  constructor
  · intro j hj
    obtain ⟨d, hd, _, hact, hcond⟩ := findFreeSlot_spec s.active s.pool 0 j
      hj
    exact ⟨d, by simpa using hd, hact, hcond⟩
  · intro hnone
    unfold spawnDrone
    split
    · rfl
    · rw [hnone]

/-- C5 witness: the very first acquisition from a freshly built pool
returns slot 0 — an inactive drone at its full 20 health (selected because
it is not in the empty active list, not because its health is zero). -/
theorem c5_witness :
    ∃ d, (initWM basePosDefault).pool.get? 0 = some d ∧
      d.isActive = false ∧
      (d.health = 0 ∨ (initWM basePosDefault).active.contains 0 = false) :=
  (c5_pool_acquisition (initWM basePosDefault) nearBasePoint).1 0 (by decide)

/-! ## A concrete three-tick run of the wave manager

Tick 1 starts wave 1; tick 2 spawns pool drone 0 at the near-base point;
tick 3 moves it onto the base, where it self-destructs. -/

/-- Pool drone 0 as spawned into wave 1 at the near-base point. -/
def spawnedDrone : DroneState :=
  { health := 20, maxHealth := 20, speed := 5, damage := 10, points := 10,
    hasTarget := true, waveNumber := 1, pathVariation := 0, isActive := true,
    hasMesh := true, meshAttached := true, meshVisible := true,
    sceneKnown := false, pos := nearBasePoint }

/-- The same drone after its base hit was handled by the manager:
inactive, hidden, detached — and still at 20 health. -/
def settledDrone : DroneState :=
  { spawnedDrone with
    isActive := false
    meshAttached := false
    meshVisible := false }

/-- The manager one tick (dt = 1) after construction: wave 1 started. -/
def sA : WMState :=
  { currentWave := 1, pool := List.replicate 30 freshDrone, active := [],
    spawnTimer := 0, waveTimer := -1, isWaveActive := true, spawnCount := 3,
    base := testBase, score := 0, playing := true,
    log := [WMEvent.waveStart 1], baseLog := [] }

/-- The manager after tick 2: drone 0 spawned and active. -/
def sB : WMState :=
  { currentWave := 1,
    pool := spawnedDrone :: List.replicate 29 freshDrone, active := [0],
    spawnTimer := 2, waveTimer := -1, isWaveActive := true, spawnCount := 2,
    base := testBase, score := 0, playing := true,
    log := [WMEvent.waveStart 1], baseLog := [] }

/-- The manager after tick 3: drone 0 hit the base and was cleaned up. -/
def sC : WMState :=
  { currentWave := 1,
    pool := settledDrone :: List.replicate 29 freshDrone, active := [],
    spawnTimer := 1, waveTimer := -1, isWaveActive := true, spawnCount := 2,
    base := { health := 90, maxHealth := 100, pos := basePosDefault },
    score := 0, playing := true,
    log := [WMEvent.waveStart 1, WMEvent.droneDestroyedAt nearBasePoint],
    baseLog := [BaseEvent.healthChange 90 100] }

lemma run_step1 :
    wmUpdate orcNear nearBasePoint 1 (initWM basePosDefault) = sA := by
  norm_num [wmUpdate, initWM, updateActiveDrones, uadGo, startNextWave,
    getWaveDroneCount, getCurrentWaveConfig, initialWaveConfigs,
    initialWaveDroneCount, waveCooldown, sA, testBase, baseHealthConfig]

lemma run_step2 : wmUpdate orcNear nearBasePoint 1 sA = sB := by
  have hrep : List.replicate 30 freshDrone =
      freshDrone :: List.replicate 29 freshDrone := rfl
  norm_num [wmUpdate, sA, sB, updateActiveDrones, uadGo, spawnDrone,
    getInactiveDrone, hrep, findFreeSlot, freshDrone, DroneState.reset,
    DroneState.setActive, applyWaveModifications, DroneState.setWaveNumber,
    DroneState.setSpeed, DroneState.setPathVariation, listModify,
    getCurrentWaveConfig, initialWaveConfigs, spawnedDrone,
    basicDroneHealth, basicDroneSpeed, basicDronePoints,
    initialWaveDroneCount]

lemma run_step3 : wmUpdate orcNear nearBasePoint 1 sB = sC := by
  have hclose : dist2 { x := 1, y := 2, z := 0 }
      { x := 0, y := 5 / 2, z := 0 } < (baseSize + 1) ^ 2 := by
    norm_num [dist2, baseSize]
  norm_num [wmUpdate, sB, sC, updateActiveDrones, uadGo, uadStep,
    spawnedDrone, DroneState.update, DroneState.checkBaseCollision, orcNear,
    hclose, testBase, baseHealthConfig, BaseState.damage,
    DroneState.setActive, processDroneEvents, handleDroneDestroyed,
    wmSettleDrone, detachMesh, listModify, settledDrone, List.erase,
    getCurrentWaveConfig, initialWaveConfigs, nearBasePoint, basePosDefault]

/-- C5 counterexample: the claim says a selected slot is always both
inactive and at zero health.  In the reachable state one tick after
construction (wave 1 active, nothing spawned yet), the spawn attempt of
the next tick selects slot 0, whose drone has health 20 — and the spawn
proceeds, activating it.  (Indeed, the claimed policy could never spawn
from a fresh pool, whose drones all have full health.) -/
theorem c5_counterexample :
    Reachable sA ∧
    getInactiveDrone sA = some 0 ∧
    (sA.pool.get? 0).map DroneState.health = some 20 ∧
    (wmUpdate orcNear nearBasePoint 1 sA).active = [0] := by
  refine ⟨?_, rfl, rfl, ?_⟩
  · rw [← run_step1]
    exact Reachable.update _ _ _ _ (Reachable.init basePosDefault)
  · rw [run_step2]
    rfl

/-- C3 counterexample: the claim says health = 0 iff the drone is logically
dead (inactive with a detached mesh).  In the reachable state three ticks
after construction, pool drone 0 — which reached the base, deactivated,
and had its mesh detached by the manager's destruction callback within the
same tick — is inactive with a detached mesh and still has health 20. -/
theorem c3_counterexample :
    Reachable sC ∧
    (sC.pool.get? 0).map
        (fun d => (d.health, d.isActive, d.meshAttached)) =
      some (20, false, false) := by
  refine ⟨?_, rfl⟩
  rw [← run_step3, ← run_step2, ← run_step1]
  exact Reachable.update _ _ _ _ (Reachable.update _ _ _ _
    (Reachable.update _ _ _ _ (Reachable.init basePosDefault)))

/-! ## The pool/active-list invariant and its preservation -/

/-- Pool slot `j` holds a live, active drone. -/
def goodAt (pool : List DroneState) (j : ℕ) : Prop :=
  ∃ d, pool.get? j = some d ∧ d.isActive = true ∧ 0 < d.health

/-- The active list is duplicate-free and every entry denotes a pool slot
holding a live, active drone. -/
def ActiveWF (s : WMState) : Prop :=
  s.active.Nodup ∧ ∀ j ∈ s.active, goodAt s.pool j

/-- Every zero-health pool drone is inactive with a detached mesh. -/
def DeadDetached (s : WMState) : Prop :=
  ∀ d ∈ s.pool, d.health = 0 → d.isActive = false ∧ d.meshAttached = false

/-- A drone whose mesh is attached has a mesh (`mesh.parent` non-null
implies `mesh` non-null). -/
def MeshWF (s : WMState) : Prop :=
  ∀ d ∈ s.pool, d.meshAttached = true → d.hasMesh = true

/-- The wave manager's state invariant. -/
def Inv (s : WMState) : Prop := ActiveWF s ∧ DeadDetached s ∧ MeshWF s

lemma listModify_get? (f : DroneState → DroneState) :
    ∀ (l : List DroneState) (i k : ℕ),
      (listModify l i f).get? k =
        if k = i then (l.get? k).map f else l.get? k := by
  intro l
  induction l with
  | nil => intro i k; simp [listModify]
  | cons d rest ih =>
    intro i k
    cases i with
    | zero =>
      cases k with
      | zero => simp [listModify]
      | succ n => simp [listModify]
    | succ i' =>
      cases k with
      | zero => simp [listModify]
      | succ n => simpa [listModify] using ih i' n

lemma listModify_mem (f : DroneState → DroneState) :
    ∀ (l : List DroneState) (i : ℕ) (a : DroneState),
      a ∈ listModify l i f → a ∈ l ∨ ∃ b ∈ l, a = f b := by
  intro l
  induction l with
  | nil => intro i a h; cases h
  | cons d rest ih =>
    intro i a h
    cases i with
    | zero =>
      rcases List.mem_cons.mp h with h | h
      · exact Or.inr ⟨d, List.mem_cons_self d rest, h⟩
      · exact Or.inl (List.mem_cons_of_mem d h)
    | succ i' =>
      rcases List.mem_cons.mp h with h | h
      · exact Or.inl (h ▸ List.mem_cons_self d rest)
      · rcases ih i' a h with h | ⟨b, hb, hab⟩
        · exact Or.inl (List.mem_cons_of_mem d h)
        · exact Or.inr ⟨b, List.mem_cons_of_mem d hb, hab⟩

/-- Fields of the post-destruction drone, under mesh well-formedness. -/
lemma forceDestroy_fields (d : DroneState)
    (hm : d.meshAttached = true → d.hasMesh = true) :
    d.forceDestroy.1.health = 0 ∧ d.forceDestroy.1.isActive = false ∧
    d.forceDestroy.1.meshAttached = false ∧
    d.forceDestroy.1.hasMesh = d.hasMesh ∧
    d.forceDestroy.2 = [DroneEvent.destroyed d.points] := by
  by_cases hatt : d.meshAttached = true
  · simp [DroneState.forceDestroy, hatt, hm hatt]
  · simp only [Bool.not_eq_true] at hatt
    by_cases hhm : d.hasMesh = true <;>
      simp [DroneState.forceDestroy, hatt, hhm]

/-- Fields of the settled drone, under mesh well-formedness. -/
lemma wmSettleDrone_fields (d : DroneState)
    (hm : d.meshAttached = true → d.hasMesh = true) :
    (wmSettleDrone d).health = d.health ∧
    (wmSettleDrone d).isActive = false ∧
    (wmSettleDrone d).meshAttached = false ∧
    (wmSettleDrone d).hasMesh = d.hasMesh := by
  by_cases hatt : d.meshAttached = true
  · by_cases ha : d.isActive = true <;>
      simp [wmSettleDrone, detachMesh, hatt, hm hatt, ha, DroneState.setActive]
  · simp only [Bool.not_eq_true] at hatt
    by_cases ha : d.isActive = true <;>
      by_cases hhm : d.hasMesh = true <;>
        simp [wmSettleDrone, detachMesh, hatt, ha, hhm, DroneState.setActive]

/-- On a live, active drone, `update` either leaves the lifecycle fields
untouched and emits nothing, or performs the base hit: the drone keeps its
health and mesh attachment but deactivates, and exactly one zero-point
destruction notification is emitted. -/
lemma update_cases (d : DroneState) (b : BaseState) (p : Vec3)
    (ha : d.isActive = true) (hh : ¬d.health = 0) :
    (∃ d', d.update b p = (d', b, [], []) ∧ d'.health = d.health ∧
      d'.isActive = true ∧ d'.meshAttached = d.meshAttached ∧
      d'.hasMesh = d.hasMesh) ∨
    (∃ d' b' bevs, d.update b p = (d', b', [DroneEvent.destroyed 0], bevs)
      ∧ d'.health = d.health ∧ d'.isActive = false ∧
      d'.meshAttached = d.meshAttached ∧ d'.hasMesh = d.hasMesh) := by
  by_cases ht : d.hasTarget = true
  · by_cases hg2 : d.hasMesh = true ∧ d.meshVisible = false
    · refine Or.inl ⟨{ d with pos := p }, ?_, rfl, ha, rfl, rfl⟩
      simp [DroneState.update, hh, ha, ht, DroneState.checkBaseCollision,
        hg2]
    · by_cases hd : dist2 p b.pos < (baseSize + 1) ^ 2
      · refine Or.inr ⟨({ d with pos := p } : DroneState).setActive false,
          (b.damage d.damage).1, (b.damage d.damage).2.1, ?_, by
            simp [DroneState.setActive], by simp [DroneState.setActive], by
            simp [DroneState.setActive], by simp [DroneState.setActive]⟩
        simp [DroneState.update, hh, ha, ht, DroneState.checkBaseCollision,
          hg2, hd]
      · refine Or.inl ⟨{ d with pos := p }, ?_, rfl, ha, rfl, rfl⟩
        simp [DroneState.update, hh, ha, ht, DroneState.checkBaseCollision,
          hg2, hd]
  · refine Or.inl ⟨d, ?_, rfl, ha, rfl, rfl⟩
    have hng : d.isActive = false ∨ d.hasTarget = false := by
      simp at ht
      exact Or.inr ht
    simp [DroneState.update, hh, hng]

/-- Lemma: `handleDroneDestroyed` erases the slot from the active list and
settles the pool drone; nothing else about pool or active changes. -/
lemma handleDroneDestroyed_char (s : WMState) (j pts : ℕ) :
    (handleDroneDestroyed s j pts).active = s.active.erase j ∧
    (handleDroneDestroyed s j pts).pool =
      listModify s.pool j wmSettleDrone := by
  unfold handleDroneDestroyed
  split <;> exact ⟨rfl, rfl⟩

lemma detachMesh_fields (d : DroneState) :
    (detachMesh d).health = d.health ∧
    (detachMesh d).isActive = d.isActive ∧
    (detachMesh d).hasMesh = d.hasMesh ∧
    ((detachMesh d).meshAttached = true → d.meshAttached = true) ∧
    (d.meshAttached = false → (detachMesh d).meshAttached = false) ∧
    (d.hasMesh = true → (detachMesh d).meshAttached = false) := by
  unfold detachMesh
  by_cases hc : d.hasMesh = true ∧ d.meshAttached = true
  · simp [hc]
  · rcases Bool.eq_false_or_eq_true d.meshAttached with hatt | hatt <;>
      simp_all

/-- Preservation of the invariant by the destruction callback, assuming
every active slot other than the handled one is good. -/
lemma handleDroneDestroyed_inv (s : WMState) (j pts : ℕ)
    (hnd : s.active.Nodup)
    (hgood : ∀ k ∈ s.active, k ≠ j → goodAt s.pool k)
    (hdd : DeadDetached s) (hmw : MeshWF s) :
    Inv (handleDroneDestroyed s j pts) := by
  obtain ⟨hact, hpool⟩ := handleDroneDestroyed_char s j pts
  refine ⟨⟨?_, ?_⟩, ?_, ?_⟩
  · rw [hact]
    exact hnd.erase j
  · intro k hk
    rw [hact] at hk
    obtain ⟨hkj, hkm⟩ := hnd.mem_erase_iff.mp hk
    obtain ⟨d, hget, hda, hdh⟩ := hgood k hkm hkj
    refine ⟨d, ?_, hda, hdh⟩
    rw [hpool, listModify_get?, if_neg hkj]
    exact hget
  · intro d' hd' hh0
    rw [hpool] at hd'
    rcases listModify_mem _ _ _ _ hd' with hmem | ⟨b, hb, rfl⟩
    · exact hdd d' hmem hh0
    · obtain ⟨_, h2, h3, _⟩ := wmSettleDrone_fields b (hmw b hb)
      exact ⟨h2, h3⟩
  · intro d' hd' hatt
    rw [hpool] at hd'
    rcases listModify_mem _ _ _ _ hd' with hmem | ⟨b, hb, rfl⟩
    · exact hmw d' hmem hatt
    · obtain ⟨_, _, h3, _⟩ := wmSettleDrone_fields b (hmw b hb)
      rw [h3] at hatt
      cases hatt

/-- Preservation of the invariant by one maintenance-loop iteration. -/
lemma uadStep_inv (orc : ℕ → Vec3) (i : ℕ) (s : WMState) (h : Inv s) :
    Inv (uadStep orc i s) := by
  obtain ⟨⟨hnd, hgood⟩, hdd, hmw⟩ := h
  unfold uadStep
  rcases hai : s.active.get? i with _ | j <;> simp only [hai]
  · exact ⟨⟨hnd, hgood⟩, hdd, hmw⟩
  · rcases hpj : s.pool.get? j with _ | d <;> simp only [hpj]
    · refine ⟨⟨hnd.sublist (List.eraseIdx_sublist s.active i), ?_⟩, hdd,
        hmw⟩
      intro k hk
      exact hgood k ((List.eraseIdx_sublist s.active i).subset hk)
    · by_cases hb : d.isActive = false ∨ d.health = 0
      · rw [if_pos hb]
        refine ⟨⟨hnd.sublist (List.eraseIdx_sublist s.active i), ?_⟩, ?_,
          ?_⟩
        · intro k hk
          obtain ⟨e, hget, hea, heh⟩ :=
            hgood k ((List.eraseIdx_sublist s.active i).subset hk)
          by_cases hkj : k = j
          · obtain ⟨f1, f2, _, _, _, _⟩ := detachMesh_fields e
            refine ⟨detachMesh e, ?_, by rw [f2, hea], by rw [f1]; exact
              heh⟩
            rw [listModify_get?, if_pos hkj, hget]
            rfl
          · refine ⟨e, ?_, hea, heh⟩
            rw [listModify_get?, if_neg hkj]
            exact hget
        · intro d' hd' hh0
          rcases listModify_mem _ _ _ _ hd' with hmem | ⟨b, hb', rfl⟩
          · exact hdd d' hmem hh0
          · obtain ⟨f1, f2, _, _, f5, _⟩ := detachMesh_fields b
            rw [f1] at hh0
            obtain ⟨g1, g2⟩ := hdd b hb' hh0
            exact ⟨by rw [f2, g1], f5 g2⟩
        · intro d' hd' hatt
          rcases listModify_mem _ _ _ _ hd' with hmem | ⟨b, hb', rfl⟩
          · exact hmw d' hmem hatt
          · obtain ⟨_, _, f3, f4, _, _⟩ := detachMesh_fields b
            rw [f3]
            exact hmw b hb' (f4 hatt)
      · rw [if_neg hb]
        have ha : d.isActive = true := by
          rcases Bool.eq_false_or_eq_true d.isActive with hx | hx
          · exact hx
          · exact absurd (Or.inl hx) hb
        have hh : ¬d.health = 0 := fun hx => hb (Or.inr hx)
        have hdm : d ∈ s.pool := List.get?_mem hpj
        rcases update_cases d s.base (orc j) ha hh with
          ⟨d', heq, f1, f2, f3, f4⟩ | ⟨d', b', bevs, heq, f1, f2, f3, f4⟩
        · simp only [heq, processDroneEvents]
          refine ⟨⟨hnd, ?_⟩, ?_, ?_⟩
          · intro k hk
            by_cases hkj : k = j
            · subst hkj
              refine ⟨d', ?_, f2, by rw [f1]; omega⟩
              rw [listModify_get?, if_pos rfl, hpj]
              rfl
            · obtain ⟨e, hget, hea, heh⟩ := hgood k hk
              refine ⟨e, ?_, hea, heh⟩
              rw [listModify_get?, if_neg hkj]
              exact hget
          · intro e he hh0
            rcases listModify_mem _ _ _ _ he with hmem | ⟨b, hb', rfl⟩
            · exact hdd e hmem hh0
            · rw [f1] at hh0
              exact absurd hh0 hh
          · intro e he hatt
            rcases listModify_mem _ _ _ _ he with hmem | ⟨b, hb', rfl⟩
            · exact hmw e hmem hatt
            · rw [f4]
              rw [f3] at hatt
              exact hmw d hdm hatt
        · simp only [heq, processDroneEvents]
          apply handleDroneDestroyed_inv
          · exact hnd
          · intro k hk hkj
            obtain ⟨e, hget, hea, heh⟩ := hgood k hk
            refine ⟨e, ?_, hea, heh⟩
            rw [listModify_get?, if_neg hkj]
            exact hget
          · intro e he hh0
            rcases listModify_mem _ _ _ _ he with hmem | ⟨b, hb', rfl⟩
            · exact hdd e hmem hh0
            · rw [f1] at hh0
              exact absurd hh0 hh
          · intro e he hatt
            rcases listModify_mem _ _ _ _ he with hmem | ⟨b, hb', rfl⟩
            · exact hmw e hmem hatt
            · rw [f4]
              rw [f3] at hatt
              exact hmw d hdm hatt

lemma uadGo_inv (orc : ℕ → Vec3) :
    ∀ (fuel : ℕ) (s : WMState), Inv s → Inv (uadGo orc fuel s)
  | 0, _, h => h
  | i + 1, s, h => uadGo_inv orc i (uadStep orc i s) (uadStep_inv orc i s h)

lemma updateActiveDrones_inv (orc : ℕ → Vec3) (s : WMState) (h : Inv s) :
    Inv (updateActiveDrones orc s) :=
  uadGo_inv orc s.active.length s h

lemma listModify_id (f : DroneState → DroneState) :
    ∀ (l : List DroneState) (i : ℕ),
      (∀ a, l.get? i = some a → f a = a) → listModify l i f = l := by
  intro l
  induction l with
  | nil => intro i _; rfl
  | cons d rest ih =>
    intro i hf
    cases i with
    | zero =>
      have : f d = d := hf d rfl
      simp [listModify, this]
    | succ i' =>
      have : listModify rest i' f = rest := ih i' fun a ha => hf a (by
        simpa using ha)
      simp [listModify, this]

lemma listModify_mem_const (l : List DroneState) (i : ℕ) (c : DroneState) :
    ∀ a ∈ listModify l i (fun _ => c), a ∈ l ∨ a = c := by
  intro a ha
  rcases listModify_mem (fun _ => c) l i a ha with h | ⟨b, _, hab⟩
  · exact Or.inl h
  · exact Or.inr hab

/-- After writing a dead, detached drone into slot `i`, handling its
destruction notification restores the invariant. -/
lemma handle_after_kill (s : WMState) (i pts : ℕ) (dnew : DroneState)
    (hI : Inv s) (hna : dnew.isActive = false)
    (hnatt : dnew.meshAttached = false) :
    Inv (handleDroneDestroyed
      { s with pool := listModify s.pool i (fun _ => dnew) } i pts) := by
  obtain ⟨⟨hnd, hgood⟩, hdd, hmw⟩ := hI
  apply handleDroneDestroyed_inv
  · exact hnd
  · intro k hk hki
    obtain ⟨e, hget, hea, heh⟩ := hgood k hk
    refine ⟨e, ?_, hea, heh⟩
    rw [listModify_get?, if_neg hki]
    exact hget
  · intro e he hh0
    rcases listModify_mem _ _ _ _ he with hmem | ⟨b, _, rfl⟩
    · exact hdd e hmem hh0
    · exact ⟨hna, hnatt⟩
  · intro e he hatt
    rcases listModify_mem _ _ _ _ he with hmem | ⟨b, _, rfl⟩
    · exact hmw e hmem hatt
    · rw [hnatt] at hatt
      cases hatt

/-- Case analysis of `takeDamage` as the collision manager invokes it. -/
lemma takeDamage_cases (d : DroneState) (amount : ℕ) :
    d.takeDamage amount = (d, [], false) ∨
    (0 < d.health - amount ∧ d.takeDamage amount =
      ({ d with health := d.health - amount }, [], true)) ∨
    d.takeDamage amount =
      (({ d with health := d.health - amount } : DroneState).forceDestroy.1,
        [DroneEvent.destroyed d.points], false) := by
  unfold DroneState.takeDamage
  by_cases hg : d.health = 0 ∨ d.isActive = false
  · rw [if_pos hg]
    exact Or.inl rfl
  · rw [if_neg hg]
    by_cases hz : d.health - amount = 0
    · refine Or.inr (Or.inr ?_)
      simp only [hz, if_pos]
      simp [DroneState.forceDestroy]
    · refine Or.inr (Or.inl ⟨by omega, ?_⟩)
      simp only [hz, ite_false]

/-- Preservation of the invariant by the collision manager's
`takeDamage` path. -/
lemma hitDrone_inv (s : WMState) (i amount : ℕ) (h : Inv s) :
    Inv (hitDrone s i amount) := by
  obtain ⟨⟨hnd, hgood⟩, hdd, hmw⟩ := h
  unfold hitDrone
  rcases hpi : s.pool.get? i with _ | d <;> simp only [hpi]
  · exact ⟨⟨hnd, hgood⟩, hdd, hmw⟩
  · have hdm := List.get?_mem hpi
    rcases takeDamage_cases d amount with heq | ⟨hpos, heq⟩ | heq <;>
      simp only [heq, processDroneEvents]
    · have hid : listModify s.pool i (fun _ => d) = s.pool := by
        apply listModify_id
        intro a ha
        rw [hpi] at ha
        exact Option.some.inj ha
      rw [hid]
      exact ⟨⟨hnd, hgood⟩, hdd, hmw⟩
    · refine ⟨⟨hnd, ?_⟩, ?_, ?_⟩
      · intro k hk
        by_cases hki : k = i
        · subst hki
          obtain ⟨e, hget, hea, _⟩ := hgood k hk
          rw [hpi] at hget
          injection hget with hget
          subst hget
          refine ⟨{ d with health := d.health - amount }, ?_, hea, hpos⟩
          rw [listModify_get?, if_pos rfl, hpi]
          rfl
        · obtain ⟨e, hget, hea, heh⟩ := hgood k hk
          refine ⟨e, ?_, hea, heh⟩
          rw [listModify_get?, if_neg hki]
          exact hget
      · intro e he hh0
        rcases listModify_mem_const _ _ _ _ he with hmem | rfl
        · exact hdd e hmem hh0
        · exact absurd hh0 (by
            have hunf : ({ d with health := d.health - amount } :
                DroneState).health = d.health - amount := rfl
            omega)
      · intro e he hatt
        rcases listModify_mem_const _ _ _ _ he with hmem | rfl
        · exact hmw e hmem hatt
        · exact hmw d hdm hatt
    · have hm1 : ({ d with health := d.health - amount } :
          DroneState).meshAttached = true →
          ({ d with health := d.health - amount } :
            DroneState).hasMesh = true := fun ha => hmw d hdm ha
      obtain ⟨_, f2, f3, _, _⟩ := forceDestroy_fields _ hm1
      exact handle_after_kill s i d.points _ ⟨⟨hnd, hgood⟩, hdd, hmw⟩ f2 f3

/-- Preservation of the invariant by the collision manager's lethal
`forceDestroy` path. -/
lemma destroyDrone_inv (s : WMState) (i : ℕ) (h : Inv s) :
    Inv (destroyDrone s i) := by
  obtain ⟨⟨hnd, hgood⟩, hdd, hmw⟩ := h
  unfold destroyDrone
  rcases hpi : s.pool.get? i with _ | d <;> simp only [hpi]
  · exact ⟨⟨hnd, hgood⟩, hdd, hmw⟩
  · have hdm := List.get?_mem hpi
    obtain ⟨_, f2, f3, _, f5⟩ := forceDestroy_fields d (hmw d hdm)
    have hev : d.forceDestroy.2 = [DroneEvent.destroyed d.points] := f5
    rw [hev]
    simp only [processDroneEvents]
    exact handle_after_kill s i d.points _ ⟨⟨hnd, hgood⟩, hdd, hmw⟩ f2 f3

/-- Lifecycle fields of a drone as prepared for spawning (`reset` followed
by `applyWaveModifications`). -/
lemma spawnPrep_fields (w : ℕ) (d : DroneState) (p : Vec3) :
    (applyWaveModifications w (d.reset p)).health = d.maxHealth ∧
    (applyWaveModifications w (d.reset p)).isActive = true ∧
    (applyWaveModifications w (d.reset p)).hasMesh = d.hasMesh ∧
    ((applyWaveModifications w (d.reset p)).meshAttached = true →
      d.meshAttached = true ∨ d.hasMesh = true) := by
  by_cases hw : 3 ≤ w <;>
    by_cases hm : d.hasMesh = true <;>
      by_cases hc : d.meshAttached = false ∧ d.sceneKnown = true <;>
        simp [applyWaveModifications, DroneState.reset,
          DroneState.setActive, DroneState.setWaveNumber,
          DroneState.setSpeed, DroneState.setPathVariation, hw, hm, hc]

/-- Preservation of the invariant by a spawn attempt. -/
lemma spawnDrone_inv (s : WMState) (sp : Vec3) (h : Inv s) :
    Inv (spawnDrone s sp) := by
  obtain ⟨⟨hnd, hgood⟩, hdd, hmw⟩ := h
  unfold spawnDrone
  by_cases hsc : s.spawnCount = 0
  · rw [if_pos hsc]
    exact ⟨⟨hnd, hgood⟩, hdd, hmw⟩
  · rw [if_neg hsc]
    rcases hfind : getInactiveDrone s with _ | j <;> simp only [hfind]
    · exact ⟨⟨hnd, hgood⟩, hdd, hmw⟩
    · rcases hpj : s.pool.get? j with _ | d <;> simp only [hpj]
      · exact ⟨⟨hnd, hgood⟩, hdd, hmw⟩
      · have hdm := List.get?_mem hpj
        obtain ⟨d0, hget0, _, hact0, _⟩ :=
          findFreeSlot_spec s.active s.pool 0 j hfind
        rw [Nat.sub_zero, hpj] at hget0
        injection hget0 with hget0
        subst hget0
        have hjna : j ∉ s.active := by
          intro hmem
          obtain ⟨e, hget, hea, _⟩ := hgood j hmem
          rw [hpj] at hget
          injection hget with hget
          rw [← hget, hact0] at hea
          exact Bool.false_ne_true hea
        obtain ⟨p1, p2, p3, p4⟩ := spawnPrep_fields s.currentWave d sp
        have hm2 : (applyWaveModifications s.currentWave
            (d.reset sp)).meshAttached = true →
            (applyWaveModifications s.currentWave
              (d.reset sp)).hasMesh = true := by
          intro ha
          rcases p4 ha with hx | hx
          · rw [p3]
            exact hmw d hdm hx
          · rw [p3]
            exact hx
        by_cases hz : (applyWaveModifications s.currentWave
            (d.reset sp)).health = 0
        · rw [if_pos hz]
          have hev : (applyWaveModifications s.currentWave
              (d.reset sp)).forceDestroy.2 =
              [DroneEvent.destroyed (applyWaveModifications s.currentWave
                (d.reset sp)).points] := rfl
          rw [hev]
          simp only [processDroneEvents]
          obtain ⟨_, f2, f3, _, _⟩ := forceDestroy_fields _ hm2
          exact handle_after_kill s j _ _ ⟨⟨hnd, hgood⟩, hdd, hmw⟩ f2 f3
        · rw [if_neg hz]
          by_cases hm3 : (applyWaveModifications s.currentWave
              (d.reset sp)).hasMesh = true
          · rw [if_pos hm3]
            have hgoal : Inv { s with
                pool := listModify s.pool j (fun _ =>
                  if (applyWaveModifications s.currentWave
                      (d.reset sp)).meshAttached = false then
                    { applyWaveModifications s.currentWave (d.reset sp) with
                      meshAttached := true }
                  else applyWaveModifications s.currentWave (d.reset sp)),
                active := s.active ++ [j],
                spawnCount := s.spawnCount - 1 } := by
              set d2 := applyWaveModifications s.currentWave (d.reset sp)
                with hd2
              set d3 := (if d2.meshAttached = false then
                { d2 with meshAttached := true } else d2) with hd3
              have h3h : d3.health = d2.health := by
                rw [hd3]
                split <;> rfl
              have h3a : d3.isActive = true := by
                rw [hd3]
                split
                · exact p2
                · exact p2
              have h3m : d3.hasMesh = true := by
                rw [hd3]
                split
                · exact hm3
                · exact hm3
              refine ⟨⟨?_, ?_⟩, ?_, ?_⟩
              · rw [List.nodup_append]
                refine ⟨hnd, List.nodup_singleton j, fun a hal haj => ?_⟩
                rw [List.mem_singleton] at haj
                subst haj
                exact hjna hal
              · intro k hk
                rcases List.mem_append.mp hk with hk | hk
                · have hkj : k ≠ j := fun he => hjna (he ▸ hk)
                  obtain ⟨e, hget, hea, heh⟩ := hgood k hk
                  refine ⟨e, ?_, hea, heh⟩
                  rw [listModify_get?, if_neg hkj]
                  exact hget
                · rw [List.mem_singleton] at hk
                  subst hk
                  refine ⟨d3, ?_, h3a, ?_⟩
                  · rw [listModify_get?, if_pos rfl, hpj]
                    rfl
                  · rw [h3h]
                    omega
              · intro e he hh0
                rcases listModify_mem_const _ _ _ _ he with hmem | rfl
                · exact hdd e hmem hh0
                · rw [h3h] at hh0
                  exact absurd hh0 hz
              · intro e he hatt
                rcases listModify_mem_const _ _ _ _ he with hmem | rfl
                · exact hmw e hmem hatt
                · exact h3m
            exact hgoal
          · rw [if_neg hm3]
            exact ⟨⟨hnd, hgood⟩, hdd, hmw⟩

/-- Preservation of the invariant by a session reset. -/
lemma wmReset_inv (s : WMState) (h : Inv s) : Inv (wmReset s) := by
  obtain ⟨_, _, hmw⟩ := h
  have hf : ∀ b : DroneState, b ∈ s.pool →
      (detachMesh ((((b.setWaveNumber 1).setPathVariation 0).setSpeed
        basicDroneSpeed).setActive false)).isActive = false ∧
      (detachMesh ((((b.setWaveNumber 1).setPathVariation 0).setSpeed
        basicDroneSpeed).setActive false)).meshAttached = false := by
    intro b hb
    by_cases hatt : b.meshAttached = true
    · have hm := hmw b hb hatt
      simp [detachMesh, DroneState.setActive, DroneState.setWaveNumber,
        DroneState.setPathVariation, DroneState.setSpeed, hatt, hm]
    · simp only [Bool.not_eq_true] at hatt
      by_cases hm : b.hasMesh = true <;>
        simp [detachMesh, DroneState.setActive, DroneState.setWaveNumber,
          DroneState.setPathVariation, DroneState.setSpeed, hatt, hm]
  refine ⟨⟨List.nodup_nil, ?_⟩, ?_, ?_⟩
  · intro k hk
    cases hk
  · intro e he _
    obtain ⟨b, hb, rfl⟩ := List.mem_map.mp he
    exact hf b hb
  · intro e he hatt
    obtain ⟨b, hb, rfl⟩ := List.mem_map.mp he
    rw [(hf b hb).2] at hatt
    cases hatt

/-- The invariant holds at construction. -/
lemma initWM_inv (p : Vec3) : Inv (initWM p) := by
  refine ⟨⟨List.nodup_nil, ?_⟩, ?_, ?_⟩
  · intro k hk
    cases hk
  · intro e he hh0
    have he' : e = freshDrone := List.eq_of_mem_replicate he
    subst he'
    simp [freshDrone, basicDroneHealth] at hh0
  · intro e he _
    have he' : e = freshDrone := List.eq_of_mem_replicate he
    subst he'
    rfl

/-- Preservation of the invariant by a full wave-manager tick. -/
lemma wmUpdate_inv (orc : ℕ → Vec3) (sp : Vec3) (dt : ℚ) (s : WMState)
    (h : Inv s) : Inv (wmUpdate orc sp dt s) := by
  have h1 := updateActiveDrones_inv orc s h
  simp only [wmUpdate]
  split_ifs <;>
    first
    | exact h
    | exact h1
    | exact spawnDrone_inv _ sp h1

/-- Every reachable wave-manager state satisfies the invariant. -/
lemma reachable_inv (s : WMState) (h : Reachable s) : Inv s := by
  induction h with
  | init p => exact initWM_inv p
  | update orc sp dt t _ ih => exact wmUpdate_inv orc sp dt t ih
  | hit i a t _ ih => exact hitDrone_inv t i a ih
  | lethalHit i t _ ih => exact destroyDrone_inv t i ih
  | reset t _ ih => exact wmReset_inv t ih

lemma nodup_length_le (l : List ℕ) (n : ℕ) (hnd : l.Nodup)
    (hb : ∀ j ∈ l, j < n) : l.length ≤ n := by
  have h1 : l.toFinset.card = l.length := List.toFinset_card_of_nodup hnd
  have h2 : l.toFinset ⊆ Finset.range n := by
    intro x hx
    rw [List.mem_toFinset] at hx
    exact Finset.mem_range.mpr (hb x hx)
  calc l.length = l.toFinset.card := h1.symm
    _ ≤ (Finset.range n).card := Finset.card_le_card h2
    _ = n := Finset.card_range n

/-- C9 (confirmed): in every state reachable by the wave manager's
operations (per-frame update with spawning and maintenance, collision
hits and lethal hits delivered through the destruction callback, session
reset), the active list is duplicate-free, no longer than the pool, and
each of its entries denotes a valid pool slot (activeDrones ⊆ dronePool)
holding a drone with `active = true` and `health > 0`. -/
theorem c9_active_list_invariant (s : WMState) (h : Reachable s) :
    s.active.Nodup ∧ s.active.length ≤ s.pool.length ∧
    ∀ j ∈ s.active, ∃ d, s.pool.get? j = some d ∧ d.isActive = true ∧
      0 < d.health := by
  obtain ⟨⟨hnd, hgood⟩, _, _⟩ := reachable_inv s h
  refine ⟨hnd, ?_, hgood⟩
  apply nodup_length_le _ _ hnd
  intro j hj
  obtain ⟨d, hget, _, _⟩ := hgood j hj
  by_contra hle
  rw [List.get?_eq_none.mpr (le_of_not_lt hle)] at hget
  cases hget

/-- C9 witness: the invariant at the concrete reachable state two ticks
after construction, whose active list `[0]` holds the one live spawned
drone in a 30-slot pool. -/
theorem c9_witness :
    sB.active.Nodup ∧ sB.active.length ≤ sB.pool.length ∧
    ∀ j ∈ sB.active, ∃ d, sB.pool.get? j = some d ∧ d.isActive = true ∧
      0 < d.health := by
  apply c9_active_list_invariant
  rw [← run_step2, ← run_step1]
  exact Reachable.update _ _ _ _
    (Reachable.update _ _ _ _ (Reachable.init _))

/-- C3 (amended): the forward direction of the claimed equivalence holds
as a reachable-state invariant — every pool drone with `health = 0` is
inactive with a detached mesh.  The converse fails: a base-collided drone
is inactive and, once the manager's callback detaches its mesh, logically
dead by the claim's criterion while keeping its positive health (see the
counterexample). -/
theorem c3_dead_drones_detached (s : WMState) (h : Reachable s) :
    ∀ d ∈ s.pool, d.health = 0 → d.isActive = false ∧
      d.meshAttached = false :=
  (reachable_inv s h).2.1

/-- Pool drone 0 of `sB` right after the collision manager's lethal hit:
health 0, deactivated, mesh detached. -/
def deadDrone : DroneState :=
  { spawnedDrone with health := 0, isActive := false, meshAttached := false }

/-- C3 witness: the invariant applied to the concrete reachable state in
which the spawned drone was just force-destroyed by a lethal hit. -/
theorem c3_witness :
    deadDrone.isActive = false ∧ deadDrone.meshAttached = false := by
  have hre : Reachable (destroyDrone sB 0) := by
    rw [← run_step2, ← run_step1]
    exact Reachable.lethalHit 0 _ (Reachable.update _ _ _ _
      (Reachable.update _ _ _ _ (Reachable.init _)))
  have hget : (destroyDrone sB 0).pool.get? 0 = some deadDrone := by decide
  exact c3_dead_drones_detached _ hre deadDrone (List.get?_mem hget) rfl

end DroneGame
